import Mathlib

/-
Verification of the Turkish sentiment-analysis pipeline
(src/sentiment_analysis.py, src/main.py).

Shallow embedding conventions:
- The Zemberek morphology engine, the tokenizer and text preprocessing are
  external collaborators; they are modelled as an adapter function from a
  sentence to an Except value carrying the cleaned token list together with
  the per-token morphological analyses, a failing adapter standing for any
  exception raised in those steps.
- Python dicts of word roots to integer weights are modelled as association
  lists with first-match lookup.
- Python floats produced by true division are modelled as exact rationals.
- A Python analysis object exposes item.root, item.normalized_form and its
  str(...) rendering; an empty root string models a falsy (None or empty)
  root, matching how the code branches on truthiness.
-/

namespace TurkishSentiment

/-- One morphological analysis, as the scoring code observes it:
the lexical root (empty string when absent), the normalized form used as a
fallback, and the textual rendering that the code scans for the substrings
Verb and Neg. -/
structure TokenAnalysis where
  root : String
  normalized_form : String
  morphemes : String
deriving DecidableEq, Repr

/-- A sentiment lexicon: association list from root to weight, modelling a
Python dict (first match wins on lookup). -/
abbrev Dict := List (String × Int)

/-- Dict lookup: the value bound to the first matching key, if any. -/
def dictLookup (d : Dict) (k : String) : Option Int :=
  (d.find? (fun p => p.1 == k)).map (fun p => p.2)

/-- Whether a pattern occurs contiguously inside a character list, starting
at the head. -/
def matchesAt : List Char → List Char → Bool
  | _, [] => true
  | [], _ :: _ => false
  | c :: cs, p :: ps => c == p && matchesAt cs ps

/-- Whether a pattern occurs contiguously anywhere inside a character
list. -/
def hasSubstr : List Char → List Char → Bool
  | [], pat => pat.isEmpty
  | c :: cs, pat => matchesAt (c :: cs) pat || hasSubstr cs pat

/-- Python substring containment on strings (the `in` operator). -/
def strContains (hay pat : String) : Bool :=
  hasSubstr hay.data pat.data

/-- Lowercasing, character by character: the model of the lower method
(identical to mapping Char.toLower over the characters, stated this way so
that concrete inputs evaluate inside the kernel). -/
def lowercase (s : String) : String := ⟨s.data.map Char.toLower⟩

/-- root = result.item.root or result.item.normalized_form, lowercased;
empty when both are falsy (sentiment_analysis.py lines 74-75). -/
def resolvedRoot (a : TokenAnalysis) : String :=
  let r0 := if a.root = "" then a.normalized_form else a.root
  if r0 = "" then "" else lowercase r0

/-- The predicate_info record built for the first verb-tagged analysis found
scanning from the end of the sentence. -/
structure PredicateInfo where
  root : String
  is_negative : Bool
  full_analysis : String
deriving DecidableEq, Repr

/-- The found_features mapping of the result: the defaultdict of lists keyed
by predicate, positive_words and negative_words; an absent key is an empty
list. -/
structure Features where
  predicate : List PredicateInfo
  positive_words : List String
  negative_words : List String
deriving DecidableEq, Repr

/-- The dictionary returned by analyze_sentiment. -/
structure SentimentResult where
  sentiment : String
  score : Int
  confidence : ℚ
  features : Features
  predicate_analysis : Option PredicateInfo
deriving DecidableEq, Repr

/-- The mutable state threaded through the scoring loop of
analyze_sentiment (score, confidence counter, and the two word lists of
found_features). -/
structure ScoreState where
  score : Int
  confidence : Nat
  positive_words : List String
  negative_words : List String
deriving DecidableEq, Repr

/-- One iteration of the scoring loop (sentiment_analysis.py lines 73-84):
look the resolved root up in the positive dict first, else in the negative
dict, else contribute nothing. -/
def scoreStep (positive_dict negative_dict : Dict) (predicate_multiplier : Int)
    (st : ScoreState) (a : TokenAnalysis) : ScoreState :=
  let root := resolvedRoot a
  match dictLookup positive_dict root with
  | some w =>
      { st with
        score := st.score + w * predicate_multiplier
        confidence := st.confidence + 1
        positive_words := st.positive_words ++ [root] }
  | none =>
      match dictLookup negative_dict root with
      | some w =>
          { st with
            score := st.score + w * predicate_multiplier * (-1)
            confidence := st.confidence + 1
            negative_words := st.negative_words ++ [root] }
      | none => st

/-- The backward scan for the governing predicate: the first analysis, taken
from the end, whose rendering contains the substring Verb
(sentiment_analysis.py lines 46-58). -/
def findPredicate (results : List TokenAnalysis) : Option TokenAnalysis :=
  results.reverse.find? (fun a => strContains a.morphemes "Verb")

/-- predicate_multiplier after the backward scan: -1 exactly when the found
predicate also carries the substring Neg, 1 otherwise (including when no
verb exists). -/
def predicateMultiplier (results : List TokenAnalysis) : Int :=
  match findPredicate results with
  | some a => if strContains a.morphemes "Neg" then -1 * 1 else 1
  | none => 1

/-- predicate_info as recorded for diagnostics, when a predicate exists. -/
def predicateInfoOf (results : List TokenAnalysis) : Option PredicateInfo :=
  (findPredicate results).map
    (fun a => ⟨a.root, strContains a.morphemes "Neg", a.morphemes⟩)

/-- The external preprocessing, tokenization and morphological analysis
steps, bundled as one adapter: given the sentence it either yields the
cleaned token list with the disambiguated analyses or fails, a failure
standing for any exception raised inside those steps. -/
abbrev Adapter := String → Except String (List String × List TokenAnalysis)

/-- The body of analyze_sentiment after the external analysis succeeded
(sentiment_analysis.py lines 42-103). -/
def analyzeCore (tokens : List String) (results : List TokenAnalysis)
    (positive_dict negative_dict : Dict) : SentimentResult :=
  let predicate_info := predicateInfoOf results
  let predicate_multiplier := predicateMultiplier results
  let st := results.foldl (scoreStep positive_dict negative_dict predicate_multiplier)
    ⟨0, 0, [], []⟩
  let confidence_score : ℚ :=
    if tokens = [] then 0 else (st.confidence : ℚ) / (tokens.length : ℚ)
  let sentiment :=
    if st.score > 0 then "Positive"
    else if st.score < 0 then "Negative"
    else "Neutral"
  { sentiment := sentiment
    score := st.score
    confidence := confidence_score
    features :=
      { predicate := predicate_info.toList
        positive_words := st.positive_words
        negative_words := st.negative_words }
    predicate_analysis := predicate_info }

/-- analyze_sentiment (sentiment_analysis.py lines 32-112): run the external
analysis, score the sentence, and convert any failure into the fail-soft
Error result. -/
def analyze_sentiment (sentence : String) (morphology : Adapter)
    (positive_dict negative_dict : Dict) : SentimentResult :=
  match morphology sentence with
  | .ok (tokens, results) => analyzeCore tokens results positive_dict negative_dict
  | .error _ =>
      { sentiment := "Error"
        score := 0
        confidence := 0
        features := { predicate := [], positive_words := [], negative_words := [] }
        predicate_analysis := none }

/-- One entry of the predictions list of evaluate_model. -/
structure Prediction where
  text : String
  true_label : String
  predicted : String
  confidence : ℚ
  features : Features
deriving DecidableEq, Repr

/-- One entry of the wrong_predictions list of evaluate_model. -/
structure WrongPrediction where
  text : String
  true_label : String
  predicted : String
  confidence : ℚ
deriving DecidableEq, Repr

/-- The accumulator dictionary of evaluate_model: confusion counts plus the
two prediction lists. -/
structure EvalResults where
  DP : Nat
  DN : Nat
  YP : Nat
  YN : Nat
  predictions : List Prediction
  wrong_predictions : List WrongPrediction
deriving DecidableEq, Repr

/-- One iteration of the evaluation loop (sentiment_analysis.py lines
143-186): score one test case, classify it through the if/elif chain, and
append it to the predictions list. -/
def evalStep (morphology : Adapter) (positive_dict negative_dict : Dict)
    (results : EvalResults) (case : String × String) : EvalResults :=
  let sentence := case.1
  let true_label := case.2
  let analysis := analyze_sentiment sentence morphology positive_dict negative_dict
  let prediction := analysis.sentiment
  let wrong : WrongPrediction := ⟨sentence, true_label, prediction, analysis.confidence⟩
  let results :=
    if prediction = "Positive" ∧ true_label = "Pozitif" then
      { results with DP := results.DP + 1 }
    else if prediction = "Negative" ∧ true_label = "Negatif" then
      { results with DN := results.DN + 1 }
    else if prediction = "Positive" ∧ true_label = "Negatif" then
      { results with
        YP := results.YP + 1
        wrong_predictions := results.wrong_predictions ++ [wrong] }
    else if prediction = "Negative" ∧ true_label = "Pozitif" then
      { results with
        YN := results.YN + 1
        wrong_predictions := results.wrong_predictions ++ [wrong] }
    else if prediction = "Neutral" then
      let results :=
        if true_label = "Pozitif" then { results with YN := results.YN + 1 }
        else { results with YP := results.YP + 1 }
      { results with wrong_predictions := results.wrong_predictions ++ [wrong] }
    else results
  { results with
    predictions := results.predictions ++
      [⟨sentence, true_label, prediction, analysis.confidence, analysis.features⟩] }

/-- evaluate_model (sentiment_analysis.py lines 115-188). -/
def evaluate_model (test_data : List (String × String)) (morphology : Adapter)
    (positive_dict negative_dict : Dict) : EvalResults :=
  test_data.foldl (evalStep morphology positive_dict negative_dict)
    ⟨0, 0, 0, 0, [], []⟩

/-- accuracy as computed by main (main.py line 65). -/
def accuracy (DP DN YP YN : Nat) : ℚ :=
  if DP + DN + YP + YN > 0
  then ((DP : ℚ) + (DN : ℚ)) / ((DP : ℚ) + (DN : ℚ) + (YP : ℚ) + (YN : ℚ))
  else 0

/-- precision as computed by main (main.py line 66). -/
def precision (DP YP : Nat) : ℚ :=
  if DP + YP > 0 then (DP : ℚ) / ((DP : ℚ) + (YP : ℚ)) else 0

/-- recall as computed by main (main.py line 67); recall is a reserved word
in Lean, hence the Of suffix. -/
def recallOf (DP YN : Nat) : ℚ :=
  if DP + YN > 0 then (DP : ℚ) / ((DP : ℚ) + (YN : ℚ)) else 0

/-- f1 as computed by main (main.py line 68). -/
def f1 (precision recallValue : ℚ) : ℚ :=
  if precision + recallValue > 0
  then 2 * precision * recallValue / (precision + recallValue)
  else 0

/-- The signed contribution one analysis makes to the score, before the
predicate multiplier is applied: its positive weight, the negation of its
negative weight (positive lookup first), or zero. -/
def contrib (positive_dict negative_dict : Dict) (a : TokenAnalysis) : Int :=
  match dictLookup positive_dict (resolvedRoot a) with
  | some w => w
  | none =>
      match dictLookup negative_dict (resolvedRoot a) with
      | some w => -w
      | none => 0

/-- Whether an analysis counts as a lexicon match (its resolved root is a
key of either dict). -/
def isMatch (positive_dict negative_dict : Dict) (a : TokenAnalysis) : Bool :=
  (dictLookup positive_dict (resolvedRoot a)).isSome ||
    (dictLookup negative_dict (resolvedRoot a)).isSome

/-- The number of lexicon matches among the analyses. -/
def matchCount (positive_dict negative_dict : Dict)
    (results : List TokenAnalysis) : Nat :=
  (results.filter (isMatch positive_dict negative_dict)).length

/-- The final score of the scoring loop run with a given predicate
multiplier. -/
def scoreOf (positive_dict negative_dict : Dict) (predicate_multiplier : Int)
    (results : List TokenAnalysis) : Int :=
  (results.foldl (scoreStep positive_dict negative_dict predicate_multiplier)
    ⟨0, 0, [], []⟩).score

/-- Closed form of the scoring loop: starting from any state, the loop adds
the multiplier times the summed contributions to the score, the match count
to the confidence counter, and appends the matched roots to the two word
lists in order. -/
theorem foldl_scoreStep_eq (positive_dict negative_dict : Dict)
    (predicate_multiplier : Int) (l : List TokenAnalysis) (st : ScoreState) :
    l.foldl (scoreStep positive_dict negative_dict predicate_multiplier) st =
      { score := st.score +
          predicate_multiplier * (l.map (contrib positive_dict negative_dict)).sum
        confidence := st.confidence + matchCount positive_dict negative_dict l
        positive_words := st.positive_words ++
          (l.filter (fun a => (dictLookup positive_dict (resolvedRoot a)).isSome)).map
            resolvedRoot
        negative_words := st.negative_words ++
          (l.filter (fun a => (dictLookup positive_dict (resolvedRoot a)).isNone &&
            (dictLookup negative_dict (resolvedRoot a)).isSome)).map resolvedRoot } := by
  induction l generalizing st with
  | nil => simp [matchCount]
  | cons a t ih =>
    rw [List.foldl_cons, ih]
    simp only [matchCount, List.map_cons, List.sum_cons, List.filter_cons]
    unfold scoreStep contrib
    cases hp : dictLookup positive_dict (resolvedRoot a) with
    | some w =>
        simp [isMatch, hp, List.filter_cons, mul_add]
        constructor
        · ring
        · omega
    | none =>
        cases hn : dictLookup negative_dict (resolvedRoot a) with
        | some w =>
            simp [isMatch, hp, hn, List.filter_cons, mul_add]
            constructor
            · ring
            · omega
        | none =>
            simp [isMatch, hp, hn, List.filter_cons]

/-- The total score of a sentence: the predicate multiplier times the summed
lexicon contributions. -/
def totalScore (positive_dict negative_dict : Dict)
    (results : List TokenAnalysis) : Int :=
  predicateMultiplier results * (results.map (contrib positive_dict negative_dict)).sum

/-- Closed form of analyzeCore in terms of totalScore, matchCount and the
predicate scan. -/
theorem analyzeCore_eq (tokens : List String) (results : List TokenAnalysis)
    (positive_dict negative_dict : Dict) :
    analyzeCore tokens results positive_dict negative_dict =
      { sentiment :=
          if totalScore positive_dict negative_dict results > 0 then "Positive"
          else if totalScore positive_dict negative_dict results < 0 then "Negative"
          else "Neutral"
        score := totalScore positive_dict negative_dict results
        confidence :=
          if tokens = [] then 0
          else (matchCount positive_dict negative_dict results : ℚ) / (tokens.length : ℚ)
        features :=
          { predicate := (predicateInfoOf results).toList
            positive_words :=
              (results.filter
                (fun a => (dictLookup positive_dict (resolvedRoot a)).isSome)).map
                resolvedRoot
            negative_words :=
              (results.filter
                (fun a => (dictLookup positive_dict (resolvedRoot a)).isNone &&
                  (dictLookup negative_dict (resolvedRoot a)).isSome)).map resolvedRoot }
        predicate_analysis := predicateInfoOf results } := by
  simp only [analyzeCore, foldl_scoreStep_eq]
  simp [totalScore]

/-- An adapter whose external analysis always fails, modelling a raised
exception inside preprocessing, tokenization or morphology. -/
def failingAdapter : Adapter := fun _ => Except.error "analysis failed"

/-- Helper: how the sentiment label of a successful analysis relates to the
sign of its score. -/
theorem label_iff (S : Int) :
    ((if S > 0 then "Positive" else if S < 0 then "Negative" else "Neutral") =
        "Positive" ↔ 0 < S) ∧
    ((if S > 0 then "Positive" else if S < 0 then "Negative" else "Neutral") =
        "Negative" ↔ S < 0) ∧
    ((if S > 0 then "Positive" else if S < 0 then "Negative" else "Neutral") =
        "Neutral" ↔ S = 0) := by
  rcases lt_trichotomy S 0 with h | h | h
  · simp +decide [h, lt_asymm h, h.ne]
  · simp +decide [h]
  · simp +decide [h, lt_asymm h, h.ne']

/-- C2: if the external analysis fails, analyze_sentiment catches the
failure and returns exactly the Error result (sentiment Error, score 0,
confidence 0, empty features, no predicate analysis); being a total
function of its inputs, it never propagates a failure to the caller. -/
theorem analyze_sentiment_fail_soft (sentence : String) (morphology : Adapter)
    (positive_dict negative_dict : Dict) (e : String)
    (h : morphology sentence = Except.error e) :
    analyze_sentiment sentence morphology positive_dict negative_dict =
      { sentiment := "Error", score := 0, confidence := 0
        features := { predicate := [], positive_words := [], negative_words := [] }
        predicate_analysis := none } := by
  unfold analyze_sentiment
  rw [h]

/-- Witness for C2 at a concrete failing adapter. -/
theorem analyze_sentiment_fail_soft_witness :
    analyze_sentiment "harika bir film" failingAdapter [] [] =
      { sentiment := "Error", score := 0, confidence := 0
        features := { predicate := [], positive_words := [], negative_words := [] }
        predicate_analysis := none } :=
  analyze_sentiment_fail_soft "harika bir film" failingAdapter [] [] "analysis failed" rfl

/-- C4: the predicate multiplier produced by the backward verb scan is
always +1 or -1 (at most one negation flip), the scoring loop run with
multiplier -1 yields exactly the negation of the score it yields with
multiplier +1 on the same analyses and lexicons, and the score of the full
analysis is the scoring loop run with the scanned multiplier. -/
theorem negated_score_is_negation (positive_dict negative_dict : Dict)
    (results : List TokenAnalysis) :
    (predicateMultiplier results = 1 ∨ predicateMultiplier results = -1) ∧
    scoreOf positive_dict negative_dict (-1) results =
      - scoreOf positive_dict negative_dict 1 results ∧
    ∀ tokens : List String,
      (analyzeCore tokens results positive_dict negative_dict).score =
        scoreOf positive_dict negative_dict (predicateMultiplier results) results := by
  refine ⟨?_, ?_, ?_⟩
  · unfold predicateMultiplier
    cases findPredicate results with
    | none => left; rfl
    | some a =>
        by_cases h : strContains a.morphemes "Neg" = true
        · right; simp [h]
        · left; simp [h]
  · simp [scoreOf, foldl_scoreStep_eq]
  · intro tokens
    rw [analyzeCore_eq]
    simp [scoreOf, foldl_scoreStep_eq, totalScore]

/-- C6: for every result produced from a successful analysis (hence every
non-Error result), the sentiment label is exactly the sign of the score:
Positive iff score is positive, Negative iff negative, Neutral iff zero. -/
theorem sentiment_sign_of_score (sentence : String) (morphology : Adapter)
    (tokens : List String) (results : List TokenAnalysis)
    (positive_dict negative_dict : Dict)
    (h : morphology sentence = Except.ok (tokens, results)) :
    ((analyze_sentiment sentence morphology positive_dict negative_dict).sentiment =
        "Positive" ↔
      0 < (analyze_sentiment sentence morphology positive_dict negative_dict).score) ∧
    ((analyze_sentiment sentence morphology positive_dict negative_dict).sentiment =
        "Negative" ↔
      (analyze_sentiment sentence morphology positive_dict negative_dict).score < 0) ∧
    ((analyze_sentiment sentence morphology positive_dict negative_dict).sentiment =
        "Neutral" ↔
      (analyze_sentiment sentence morphology positive_dict negative_dict).score = 0) := by
  have e : analyze_sentiment sentence morphology positive_dict negative_dict =
      analyzeCore tokens results positive_dict negative_dict := by
    unfold analyze_sentiment
    rw [h]
  rw [e, analyzeCore_eq]
  exact label_iff (totalScore positive_dict negative_dict results)

/-- Witness for C6 at a concrete successful adapter. -/
theorem sentiment_sign_of_score_witness :
    ((analyze_sentiment "iyi"
        (fun _ => Except.ok (["iyi"], [⟨"iyi", "iyi", "[iyi:Adj] iyi:Adj"⟩]))
        [("iyi", 1)] []).sentiment = "Positive" ↔
      0 < (analyze_sentiment "iyi"
        (fun _ => Except.ok (["iyi"], [⟨"iyi", "iyi", "[iyi:Adj] iyi:Adj"⟩]))
        [("iyi", 1)] []).score) ∧
    ((analyze_sentiment "iyi"
        (fun _ => Except.ok (["iyi"], [⟨"iyi", "iyi", "[iyi:Adj] iyi:Adj"⟩]))
        [("iyi", 1)] []).sentiment = "Negative" ↔
      (analyze_sentiment "iyi"
        (fun _ => Except.ok (["iyi"], [⟨"iyi", "iyi", "[iyi:Adj] iyi:Adj"⟩]))
        [("iyi", 1)] []).score < 0) ∧
    ((analyze_sentiment "iyi"
        (fun _ => Except.ok (["iyi"], [⟨"iyi", "iyi", "[iyi:Adj] iyi:Adj"⟩]))
        [("iyi", 1)] []).sentiment = "Neutral" ↔
      (analyze_sentiment "iyi"
        (fun _ => Except.ok (["iyi"], [⟨"iyi", "iyi", "[iyi:Adj] iyi:Adj"⟩]))
        [("iyi", 1)] []).score = 0) :=
  sentiment_sign_of_score "iyi"
    (fun _ => Except.ok (["iyi"], [⟨"iyi", "iyi", "[iyi:Adj] iyi:Adj"⟩]))
    ["iyi"] [⟨"iyi", "iyi", "[iyi:Adj] iyi:Adj"⟩] [("iyi", 1)] [] rfl

/-- C3: when no resolved root of any analysis is a key of either lexicon,
the result has confidence 0, sentiment Neutral and score 0. -/
theorem no_matches_neutral (sentence : String) (morphology : Adapter)
    (tokens : List String) (results : List TokenAnalysis)
    (positive_dict negative_dict : Dict)
    (hm : morphology sentence = Except.ok (tokens, results))
    (h : ∀ a ∈ results, dictLookup positive_dict (resolvedRoot a) = none ∧
      dictLookup negative_dict (resolvedRoot a) = none) :
    (analyze_sentiment sentence morphology positive_dict negative_dict).confidence = 0 ∧
    (analyze_sentiment sentence morphology positive_dict negative_dict).sentiment =
      "Neutral" ∧
    (analyze_sentiment sentence morphology positive_dict negative_dict).score = 0 := by
  have e : analyze_sentiment sentence morphology positive_dict negative_dict =
      analyzeCore tokens results positive_dict negative_dict := by
    unfold analyze_sentiment
    rw [hm]
  have hfil : results.filter (isMatch positive_dict negative_dict) = [] := by
    rw [List.filter_eq_nil_iff]
    intro a ha
    simp [isMatch, (h a ha).1, (h a ha).2]
  have hsum : (results.map (contrib positive_dict negative_dict)).sum = 0 := by
    apply List.sum_eq_zero
    intro x hx
    rcases List.mem_map.mp hx with ⟨a, ha, rfl⟩
    simp [contrib, (h a ha).1, (h a ha).2]
  have hS : totalScore positive_dict negative_dict results = 0 := by
    simp [totalScore, hsum]
  rw [e, analyzeCore_eq]
  refine ⟨?_, ?_, ?_⟩
  · simp [matchCount, hfil]
  · simp [hS]
  · exact hS

/-- Witness for C3 at a concrete sentence with no lexicon matches. -/
theorem no_matches_neutral_witness :
    (analyze_sentiment "bu bir film"
      (fun _ => Except.ok (["bu", "bir", "film"],
        [⟨"bu", "bu", "[bu:Pron] bu:Pron"⟩, ⟨"bir", "bir", "[bir:Det] bir:Det"⟩,
          ⟨"film", "film", "[film:Noun] film:Noun"⟩]))
      [("iyi", 1)] [("kötü", 1)]).confidence = 0 ∧
    (analyze_sentiment "bu bir film"
      (fun _ => Except.ok (["bu", "bir", "film"],
        [⟨"bu", "bu", "[bu:Pron] bu:Pron"⟩, ⟨"bir", "bir", "[bir:Det] bir:Det"⟩,
          ⟨"film", "film", "[film:Noun] film:Noun"⟩]))
      [("iyi", 1)] [("kötü", 1)]).sentiment = "Neutral" ∧
    (analyze_sentiment "bu bir film"
      (fun _ => Except.ok (["bu", "bir", "film"],
        [⟨"bu", "bu", "[bu:Pron] bu:Pron"⟩, ⟨"bir", "bir", "[bir:Det] bir:Det"⟩,
          ⟨"film", "film", "[film:Noun] film:Noun"⟩]))
      [("iyi", 1)] [("kötü", 1)]).score = 0 :=
  no_matches_neutral "bu bir film"
    (fun _ => Except.ok (["bu", "bir", "film"],
      [⟨"bu", "bu", "[bu:Pron] bu:Pron"⟩, ⟨"bir", "bir", "[bir:Det] bir:Det"⟩,
        ⟨"film", "film", "[film:Noun] film:Noun"⟩]))
    ["bu", "bir", "film"]
    [⟨"bu", "bu", "[bu:Pron] bu:Pron"⟩, ⟨"bir", "bir", "[bir:Det] bir:Det"⟩,
      ⟨"film", "film", "[film:Noun] film:Noun"⟩]
    [("iyi", 1)] [("kötü", 1)] rfl (by decide)

/-- C7: for a successful analysis whose analysis list is no longer than the
token list (the adapter produces per-token analyses), the confidence is the
number of lexicon matches divided by the number of tokens, is 0 for a
tokenless sentence, and lies in the interval from 0 to 1. -/
theorem confidence_ratio (sentence : String) (morphology : Adapter)
    (tokens : List String) (results : List TokenAnalysis)
    (positive_dict negative_dict : Dict)
    (hm : morphology sentence = Except.ok (tokens, results))
    (hlen : results.length ≤ tokens.length) :
    (analyze_sentiment sentence morphology positive_dict negative_dict).confidence =
      (matchCount positive_dict negative_dict results : ℚ) / (tokens.length : ℚ) ∧
    (tokens = [] →
      (analyze_sentiment sentence morphology positive_dict negative_dict).confidence = 0) ∧
    0 ≤ (analyze_sentiment sentence morphology positive_dict negative_dict).confidence ∧
    (analyze_sentiment sentence morphology positive_dict negative_dict).confidence ≤ 1 := by
  have e : analyze_sentiment sentence morphology positive_dict negative_dict =
      analyzeCore tokens results positive_dict negative_dict := by
    unfold analyze_sentiment
    rw [hm]
  have hmt : matchCount positive_dict negative_dict results ≤ tokens.length :=
    le_trans (List.length_filter_le _ results) hlen
  rw [e, analyzeCore_eq]
  by_cases ht : tokens = []
  · subst ht
    simp only [List.length_nil, Nat.le_zero, List.length_eq_zero] at hlen
    subst hlen
    simp [matchCount]
  · have h0 : (0 : ℚ) < (tokens.length : ℚ) := by
      exact_mod_cast List.length_pos.mpr ht
    refine ⟨by simp [ht], fun hc => absurd hc ht, ?_, ?_⟩
    · simp only [ht, if_false]
      positivity
    · simp only [ht, if_false]
      rw [div_le_one h0]
      exact_mod_cast hmt

/-- Witness for C7 at a concrete sentence. -/
theorem confidence_ratio_witness :
    (analyze_sentiment "iyi bir film"
      (fun _ => Except.ok (["iyi", "bir", "film"],
        [⟨"iyi", "iyi", "[iyi:Adj] iyi:Adj"⟩, ⟨"bir", "bir", "[bir:Det] bir:Det"⟩,
          ⟨"film", "film", "[film:Noun] film:Noun"⟩]))
      [("iyi", 1)] []).confidence =
      (matchCount [("iyi", 1)] []
        [⟨"iyi", "iyi", "[iyi:Adj] iyi:Adj"⟩, ⟨"bir", "bir", "[bir:Det] bir:Det"⟩,
          ⟨"film", "film", "[film:Noun] film:Noun"⟩] : ℚ) / ((3 : Nat) : ℚ) ∧
    (["iyi", "bir", "film"] = ([] : List String) →
      (analyze_sentiment "iyi bir film"
        (fun _ => Except.ok (["iyi", "bir", "film"],
          [⟨"iyi", "iyi", "[iyi:Adj] iyi:Adj"⟩, ⟨"bir", "bir", "[bir:Det] bir:Det"⟩,
            ⟨"film", "film", "[film:Noun] film:Noun"⟩]))
        [("iyi", 1)] []).confidence = 0) ∧
    0 ≤ (analyze_sentiment "iyi bir film"
      (fun _ => Except.ok (["iyi", "bir", "film"],
        [⟨"iyi", "iyi", "[iyi:Adj] iyi:Adj"⟩, ⟨"bir", "bir", "[bir:Det] bir:Det"⟩,
          ⟨"film", "film", "[film:Noun] film:Noun"⟩]))
      [("iyi", 1)] []).confidence ∧
    (analyze_sentiment "iyi bir film"
      (fun _ => Except.ok (["iyi", "bir", "film"],
        [⟨"iyi", "iyi", "[iyi:Adj] iyi:Adj"⟩, ⟨"bir", "bir", "[bir:Det] bir:Det"⟩,
          ⟨"film", "film", "[film:Noun] film:Noun"⟩]))
      [("iyi", 1)] []).confidence ≤ 1 :=
  confidence_ratio "iyi bir film"
    (fun _ => Except.ok (["iyi", "bir", "film"],
      [⟨"iyi", "iyi", "[iyi:Adj] iyi:Adj"⟩, ⟨"bir", "bir", "[bir:Det] bir:Det"⟩,
        ⟨"film", "film", "[film:Noun] film:Noun"⟩]))
    ["iyi", "bir", "film"]
    [⟨"iyi", "iyi", "[iyi:Adj] iyi:Adj"⟩, ⟨"bir", "bir", "[bir:Det] bir:Det"⟩,
      ⟨"film", "film", "[film:Noun] film:Noun"⟩]
    [("iyi", 1)] [] rfl (by decide)

/-- C5: with an all-zero confusion matrix every derived metric is 0, and
each ratio whose denominator is zero resolves to 0 instead of failing (the
guards of main.py lines 65-68). -/
theorem metrics_zero_safe :
    accuracy 0 0 0 0 = 0 ∧ precision 0 0 = 0 ∧ recallOf 0 0 = 0 ∧
    f1 (precision 0 0) (recallOf 0 0) = 0 ∧
    (∀ DP DN YP YN : Nat, DP + DN + YP + YN = 0 → accuracy DP DN YP YN = 0) ∧
    (∀ DP YP : Nat, DP + YP = 0 → precision DP YP = 0) ∧
    (∀ DP YN : Nat, DP + YN = 0 → recallOf DP YN = 0) ∧
    (∀ p r : ℚ, p + r = 0 → f1 p r = 0) := by
  refine ⟨by simp [accuracy], by simp [precision], by simp [recallOf],
    by simp [f1, precision, recallOf], ?_, ?_, ?_, ?_⟩
  · intro DP DN YP YN h
    simp [accuracy, h]
  · intro DP YP h
    simp [precision, h]
  · intro DP YN h
    simp [recallOf, h]
  · intro p r h
    simp [f1, h]

/-- Witness for C5 discharging the zero-denominator hypotheses. -/
theorem metrics_zero_safe_witness :
    accuracy 0 0 0 0 = 0 ∧ precision 0 0 = 0 ∧ recallOf 0 0 = 0 ∧
      f1 (0 : ℚ) (0 : ℚ) = 0 :=
  ⟨metrics_zero_safe.2.2.2.2.1 0 0 0 0 rfl, metrics_zero_safe.2.2.2.2.2.1 0 0 rfl,
    metrics_zero_safe.2.2.2.2.2.2.1 0 0 rfl,
    metrics_zero_safe.2.2.2.2.2.2.2 0 0 (by norm_num)⟩

/-- The analyses of the double-negative scenario: a negative word, a filler,
and a clause-final token tagged both Verb and Neg. -/
def doubleNegAnalyses : List TokenAnalysis :=
  [⟨"kötü", "kötü", "[kötü:Adj] kötü:Adj"⟩,
    ⟨"bir", "bir", "[bir:Det] bir:Det"⟩,
    ⟨"değil", "değil", "[değil:Verb] değil:Verb+Neg"⟩]

/-- C8: with negative lexicon kötü mapped to 1, a sentence whose analyses
contain kötü and end in a Verb+Neg token, and no positive matches, the
predicate multiplier is -1, the negative match contributes plus one, so the
score is 1 and the sentiment Positive. -/
theorem double_negative_positive :
    predicateMultiplier doubleNegAnalyses = -1 ∧
    (analyze_sentiment "kötü bir film değil"
      (fun _ => Except.ok (["kötü", "bir", "film", "değil"], doubleNegAnalyses))
      [] [("kötü", 1)]).score = 1 ∧
    (analyze_sentiment "kötü bir film değil"
      (fun _ => Except.ok (["kötü", "bir", "film", "değil"], doubleNegAnalyses))
      [] [("kötü", 1)]).sentiment = "Positive" ∧
    (analyze_sentiment "kötü bir film değil"
      (fun _ => Except.ok (["kötü", "bir", "film", "değil"], doubleNegAnalyses))
      [] [("kötü", 1)]).features.positive_words = [] ∧
    (analyze_sentiment "kötü bir film değil"
      (fun _ => Except.ok (["kötü", "bir", "film", "değil"], doubleNegAnalyses))
      [] [("kötü", 1)]).features.negative_words = ["kötü"] := by
  decide

/-- Helper: one evaluation step always appends exactly one entry, built from
the case and its analysis, to the predictions list, whatever branch of the
classification fires. -/
theorem evalStep_predictions (morphology : Adapter) (positive_dict negative_dict : Dict)
    (acc : EvalResults) (case : String × String) :
    (evalStep morphology positive_dict negative_dict acc case).predictions =
      acc.predictions ++
        [⟨case.1, case.2,
          (analyze_sentiment case.1 morphology positive_dict negative_dict).sentiment,
          (analyze_sentiment case.1 morphology positive_dict negative_dict).confidence,
          (analyze_sentiment case.1 morphology positive_dict negative_dict).features⟩] := by
  simp only [evalStep]
  split_ifs <;> rfl

/-- Helper: closed form of the predictions list accumulated by the
evaluation fold. -/
theorem foldl_evalStep_predictions (morphology : Adapter)
    (positive_dict negative_dict : Dict) (l : List (String × String))
    (acc : EvalResults) :
    (l.foldl (evalStep morphology positive_dict negative_dict) acc).predictions =
      acc.predictions ++
        l.map (fun case =>
          ⟨case.1, case.2,
            (analyze_sentiment case.1 morphology positive_dict negative_dict).sentiment,
            (analyze_sentiment case.1 morphology positive_dict negative_dict).confidence,
            (analyze_sentiment case.1 morphology positive_dict negative_dict).features⟩) := by
  induction l generalizing acc with
  | nil => simp
  | cons c t ih =>
      rw [List.foldl_cons, ih, evalStep_predictions]
      simp

/-- C9: evaluate_model appends exactly one entry per test case to the
predictions list, in input order, carrying text, true label, predicted
sentiment (Error included), confidence and features. -/
theorem predictions_one_per_case (test_data : List (String × String))
    (morphology : Adapter) (positive_dict negative_dict : Dict) :
    (evaluate_model test_data morphology positive_dict negative_dict).predictions =
      test_data.map (fun case =>
        ⟨case.1, case.2,
          (analyze_sentiment case.1 morphology positive_dict negative_dict).sentiment,
          (analyze_sentiment case.1 morphology positive_dict negative_dict).confidence,
          (analyze_sentiment case.1 morphology positive_dict negative_dict).features⟩) := by
  unfold evaluate_model
  rw [foldl_evalStep_predictions]
  simp

/-- C10: a root present in both lexicons is handled by the positive branch
of the else-if alone: it contributes its positive weight times the predicate
multiplier, is appended to positive_words, and leaves negative_words
untouched; consequently every root listed under negative_words in a full
analysis is absent from the positive lexicon. -/
theorem positive_lookup_precedence (positive_dict negative_dict : Dict)
    (predicate_multiplier : Int) (st : ScoreState) (a : TokenAnalysis) (w w2 : Int)
    (hp : dictLookup positive_dict (resolvedRoot a) = some w)
    (hn : dictLookup negative_dict (resolvedRoot a) = some w2) :
    scoreStep positive_dict negative_dict predicate_multiplier st a =
      { st with
        score := st.score + w * predicate_multiplier
        confidence := st.confidence + 1
        positive_words := st.positive_words ++ [resolvedRoot a] } ∧
    ∀ (sentence : String) (morphology : Adapter) (r : String),
      r ∈ (analyze_sentiment sentence morphology positive_dict
        negative_dict).features.negative_words →
      dictLookup positive_dict r = none := by
  constructor
  · simp [scoreStep, hp]
  · intro s m r hr
    cases hms : m s with
    | ok pr =>
        rcases pr with ⟨tokens, results⟩
        have e : analyze_sentiment s m positive_dict negative_dict =
            analyzeCore tokens results positive_dict negative_dict := by
          unfold analyze_sentiment
          rw [hms]
        rw [e, analyzeCore_eq] at hr
        simp only at hr
        rcases List.mem_map.mp hr with ⟨b, hb, rfl⟩
        have hbp := List.of_mem_filter hb
        simp only [Bool.and_eq_true, Option.isNone_iff_eq_none] at hbp
        exact hbp.1
    | error er =>
        have e : analyze_sentiment s m positive_dict negative_dict =
            { sentiment := "Error", score := 0, confidence := 0
              features := { predicate := [], positive_words := [], negative_words := [] }
              predicate_analysis := none } := by
          unfold analyze_sentiment
          rw [hms]
        rw [e] at hr
        simp at hr

/-- Witness for C10 at a root keyed in both lexicons. -/
theorem positive_lookup_precedence_witness :
    scoreStep [("kötü", 2)] [("kötü", 5)] 1 ⟨0, 0, [], []⟩
        ⟨"kötü", "kötü", "[kötü:Adj] kötü:Adj"⟩ =
      ⟨0 + 2 * 1, 0 + 1, [] ++ ["kötü"], []⟩ :=
  (positive_lookup_precedence [("kötü", 2)] [("kötü", 5)] 1 ⟨0, 0, [], []⟩
    ⟨"kötü", "kötü", "[kötü:Adj] kötü:Adj"⟩ 2 5 (by decide) (by decide)).1

/-- C1 as stated is false: a test case whose prediction is Error falls
through every branch of the classification chain, so with true label
Pozitif the false-negative counter stays 0 and nothing is appended to
wrong_predictions. -/
theorem error_bucketing_counterexample :
    ¬ ((evaluate_model [("bozuk cümle", "Pozitif")] failingAdapter [] []).YN = 1 ∨
      (evaluate_model [("bozuk cümle", "Pozitif")] failingAdapter [] []).wrong_predictions ≠
        []) := by
  decide

/-- C1 amended: a test case whose scorer result has sentiment Error matches
no branch of the if/elif chain of evaluate_model: every confusion counter
and the wrong_predictions list are left unchanged, and the case is still
appended to the predictions list. -/
theorem error_prediction_uncounted (sentence true_label : String)
    (morphology : Adapter) (positive_dict negative_dict : Dict) (acc : EvalResults)
    (h : (analyze_sentiment sentence morphology positive_dict negative_dict).sentiment =
      "Error") :
    evalStep morphology positive_dict negative_dict acc (sentence, true_label) =
      { acc with
        predictions := acc.predictions ++
          [⟨sentence, true_label, "Error",
            (analyze_sentiment sentence morphology positive_dict negative_dict).confidence,
            (analyze_sentiment sentence morphology positive_dict negative_dict).features⟩] } := by
  simp only [evalStep, h]
  simp +decide

/-- Witness for C1's amended theorem at a concrete failing case. -/
theorem error_prediction_uncounted_witness :
    evalStep failingAdapter [] [] ⟨0, 0, 0, 0, [], []⟩ ("bozuk cümle", "Pozitif") =
      { DP := 0, DN := 0, YP := 0, YN := 0
        predictions := [⟨"bozuk cümle", "Pozitif", "Error", 0, ⟨[], [], []⟩⟩]
        wrong_predictions := [] } :=
  error_prediction_uncounted "bozuk cümle" "Pozitif" failingAdapter [] []
    ⟨0, 0, 0, 0, [], []⟩ rfl

end TurkishSentiment
